import Mathlib

/-!
Verification of the qperf test-execution engine specification against the
source (ip.c, src/rdma.c, the RDS driver and the alternate ib.c revision).
Each definition is a shallow embedding of the corresponding C function;
theorems settle the spec claims about them.
-/

namespace Qperf

/-! ## Constants from src/rdma.c -/

def NCQE : Nat := 1024
def GRH_SIZE : Nat := 40
def RETRY_CNT : Nat := 7
def RNR_RETRY : Nat := 7
def RNR_TIMER : Nat := 12
def TIMEOUT_VAL : Nat := 14

def WRID_SEND : Nat := 1
def WRID_RECV : Nat := 2
def WRID_RDMA : Nat := 3

/-- errno value for an interrupted system call (POSIX EINTR = 4 on Linux). -/
def EINTR : Nat := 4

/-- ibv_wc_status: success status is 0. -/
def IBV_WC_SUCCESS : Nat := 0

/-! ## Statistics (STAT/USTAT from qperf.h) -/

/-- Transfer statistics, `USTAT` in qperf.h. -/
structure USTAT where
  no_bytes : Nat
  no_msgs : Nat
  no_errs : Nat
deriving Repr, DecidableEq

def USTAT.zero : USTAT := ⟨0, 0, 0⟩

/-- Per-side statistics, `STAT` in qperf.h (counter fields only). -/
structure STAT where
  max_cqes : Nat
  s : USTAT
  r : USTAT
  rem_s : USTAT
  rem_r : USTAT
deriving Repr, DecidableEq

def STAT.zero : STAT := ⟨0, .zero, .zero, .zero, .zero⟩

/-- A completion-queue entry (the fields of `struct ibv_wc` the loops read). -/
structure WC where
  wr_id : Nat
  status : Nat
deriving Repr, DecidableEq

/-! ## C4: rd_atomic handling in ib_open (src/rdma.c lines 1523-1534) -/

/-- The `Get device properties` block of `ib_open` in src/rdma.c:
`Req.rd_atomic == 0` adopts the device maximum; a configured value above the
device maximum calls `error(0, "device only supports ...")`, which in this
revision is noreturn (`cq_error` and `maybe` fall off the end after calling
it), so setup fails (`none`); otherwise the configured value is kept. -/
def ib_open_rd_atomic (rd_atomic max_qp_rd_atom : Nat) : Option Nat :=
  if rd_atomic = 0 then some max_qp_rd_atom
  else if rd_atomic > max_qp_rd_atom then none
  else some rd_atomic

/-- The same block in the unnamed/part_001 revision of `ib_open` (lines
1727-1731). There `error(char *fmt, ...)` only prints and returns (that
revision's `cq_error` explicitly returns after calling it, and other call
sites follow it with `goto err`), and the over-limit branch has no
`goto err`, so `ib_open` keeps the unclamped value and continues. The result
is the resulting `rd_atomic` value paired with whether the diagnostic was
printed. -/
def ib_open_rd_atomic_part001 (rd_atomic max_qp_rd_atom : Nat) : Nat × Bool :=
  if rd_atomic = 0 then (max_qp_rd_atom, false)
  else if rd_atomic > max_qp_rd_atom then (rd_atomic, true)
  else (rd_atomic, false)

/-! ## C6: INLINE flag computation (ib_post_send / ib_post_rdma /
ib_post_compare_swap / ib_post_fetch_add) -/

/-- ibv_send_flags bit: IBV_SEND_SIGNALED. -/
def IBV_SEND_SIGNALED : Nat := 2
/-- ibv_send_flags bit: IBV_SEND_INLINE. -/
def IBV_SEND_INLINE : Nat := 8

/-- Work-request opcodes used by the drivers. -/
inductive Opcode where
  | rdmaRead
  | rdmaWrite
  | rdmaWriteImm
  | send
  | atomicFetchAdd
  | atomicCmpSwap
deriving Repr, DecidableEq

/-- The `send_flags` word computed by `ib_post_send`: always SIGNALED; INLINE is added
when `Req.msg_size <= ibdev->maxinline`. -/
def ib_post_send_flags (msg_size maxinline : Nat) : Nat :=
  if msg_size ≤ maxinline then IBV_SEND_SIGNALED ||| IBV_SEND_INLINE
  else IBV_SEND_SIGNALED

/-- The `send_flags` word computed by `ib_post_rdma`: always SIGNALED; INLINE is added
when the opcode is not RDMA READ and `Req.msg_size <= ibdev->maxinline`. -/
def ib_post_rdma_flags (opcode : Opcode) (msg_size maxinline : Nat) : Nat :=
  if opcode ≠ Opcode.rdmaRead ∧ msg_size ≤ maxinline then
    IBV_SEND_SIGNALED ||| IBV_SEND_INLINE
  else IBV_SEND_SIGNALED

/-- The `send_flags` word in `ib_post_compare_swap`: the literal IBV_SEND_SIGNALED. -/
def ib_post_compare_swap_flags : Nat := IBV_SEND_SIGNALED

/-- The `send_flags` word in `ib_post_fetch_add`: the literal IBV_SEND_SIGNALED. -/
def ib_post_fetch_add_flags : Nat := IBV_SEND_SIGNALED

/-- Whether a send-flags word carries the INLINE bit. -/
def hasInline (flags : Nat) : Bool := flags &&& IBV_SEND_INLINE ≠ 0

/-! ## C7: ib_close teardown order (src/rdma.c lines 1685-1707) -/

/-- The RDMA resources `ib_close` may release. -/
inductive Resource where
  | ah
  | cq
  | qp
  | mr
  | pd
  | channel
  | context
  | buffer
  | devlist
deriving Repr, DecidableEq

/-- Which handles of the IBDEV are non-null when `ib_close` runs. -/
structure Handles where
  ah : Bool
  cq : Bool
  qp : Bool
  mr : Bool
  pd : Bool
  channel : Bool
  context : Bool
  buffer : Bool
  devlist : Bool
deriving Repr, DecidableEq

/-- The sequence of destroy calls issued by `ib_close`: nine guarded destroys,
in the textual order of the function. -/
def ib_close_trace (h : Handles) : List Resource :=
  (if h.ah then [Resource.ah] else []) ++
  (if h.cq then [Resource.cq] else []) ++
  (if h.qp then [Resource.qp] else []) ++
  (if h.mr then [Resource.mr] else []) ++
  (if h.pd then [Resource.pd] else []) ++
  (if h.channel then [Resource.channel] else []) ++
  (if h.context then [Resource.context] else []) ++
  (if h.buffer then [Resource.buffer] else []) ++
  (if h.devlist then [Resource.devlist] else [])

/-- The release order stated by the spec: AH, CQ, QP, MR, PD, completion
channel, device context, buffer, device list. -/
def spec_close_order : List Resource :=
  [Resource.ah, Resource.cq, Resource.qp, Resource.mr, Resource.pd,
   Resource.channel, Resource.context, Resource.buffer, Resource.devlist]

/-- Handle-presence as a predicate on resources. -/
def Handles.present (h : Handles) : Resource → Bool
  | Resource.ah => h.ah
  | Resource.cq => h.cq
  | Resource.qp => h.qp
  | Resource.mr => h.mr
  | Resource.pd => h.pd
  | Resource.channel => h.channel
  | Resource.context => h.context
  | Resource.buffer => h.buffer
  | Resource.devlist => h.devlist

/-! ## C8: ib_prepare (src/rdma.c lines 1589-1678) -/

/-- ibv_qp_state values for the two target states used by ib_prepare. -/
def IBV_QPS_RTR : Nat := 2
def IBV_QPS_RTS : Nat := 3

/-- ibv_qp_attr_mask bits (values from the verbs ABI). -/
def IBV_QP_STATE : Nat := 1
def IBV_QP_ACCESS_FLAGS : Nat := 8
def IBV_QP_PKEY_INDEX : Nat := 16
def IBV_QP_PORT : Nat := 32
def IBV_QP_QKEY : Nat := 64
def IBV_QP_AV : Nat := 128
def IBV_QP_PATH_MTU : Nat := 256
def IBV_QP_TIMEOUT : Nat := 512
def IBV_QP_RETRY_CNT : Nat := 1024
def IBV_QP_RNR_RETRY : Nat := 2048
def IBV_QP_RQ_PSN : Nat := 4096
def IBV_QP_MAX_QP_RD_ATOMIC : Nat := 8192
def IBV_QP_MIN_RNR_TIMER : Nat := 32768
def IBV_QP_SQ_PSN : Nat := 65536
def IBV_QP_MAX_DEST_RD_ATOMIC : Nat := 131072
def IBV_QP_DEST_QPN : Nat := 1048576

/-- QP transport kinds. -/
inductive Transport where
  | rc
  | uc
  | ud
deriving Repr, DecidableEq

/-- The numeric attribute fields of `struct ibv_qp_attr` the claim is about;
fields not named in the designated initializer are zero in C. -/
structure QpAttr where
  qp_state : Nat
  timeout : Nat
  retry_cnt : Nat
  rnr_retry : Nat
  min_rnr_timer : Nat
deriving Repr, DecidableEq

/-- The `rtr_attr` structure of ib_prepare: state RTR, `min_rnr_timer = RNR_TIMER`;
the other scalar fields of the claim stay zero-initialized. -/
def rtr_attr : QpAttr := ⟨IBV_QPS_RTR, 0, 0, 0, RNR_TIMER⟩

/-- The `rts_attr` structure of ib_prepare: state RTS, `timeout = TIMEOUT`,
`retry_cnt = RETRY_CNT`, `rnr_retry = RNR_RETRY`. -/
def rts_attr : QpAttr := ⟨IBV_QPS_RTS, TIMEOUT_VAL, RETRY_CNT, RNR_RETRY, 0⟩

/-- The verbs calls ib_prepare can issue, in order. -/
inductive VerbsCall where
  | modifyQP (attr : QpAttr) (flags : Nat)
  | createAH
  | reqNotifyCQ
deriving Repr, DecidableEq

/-- The sequence of verbs calls made by `ib_prepare` per transport, ending
with a CQ notification request exactly when poll mode is off. -/
def ib_prepare_trace (trans : Transport) (poll_mode : Bool) : List VerbsCall :=
  (match trans with
   | Transport.ud =>
     [VerbsCall.modifyQP rtr_attr IBV_QP_STATE,
      VerbsCall.modifyQP rts_attr (IBV_QP_STATE ||| IBV_QP_SQ_PSN),
      VerbsCall.createAH]
   | Transport.rc =>
     [VerbsCall.modifyQP rtr_attr
        (IBV_QP_STATE ||| IBV_QP_AV ||| IBV_QP_PATH_MTU ||| IBV_QP_DEST_QPN |||
         IBV_QP_RQ_PSN ||| IBV_QP_MAX_DEST_RD_ATOMIC ||| IBV_QP_MIN_RNR_TIMER),
      VerbsCall.modifyQP rts_attr
        (IBV_QP_STATE ||| IBV_QP_TIMEOUT ||| IBV_QP_RETRY_CNT |||
         IBV_QP_RNR_RETRY ||| IBV_QP_SQ_PSN ||| IBV_QP_MAX_QP_RD_ATOMIC)]
   | Transport.uc =>
     [VerbsCall.modifyQP rtr_attr
        (IBV_QP_STATE ||| IBV_QP_AV ||| IBV_QP_PATH_MTU ||| IBV_QP_DEST_QPN |||
         IBV_QP_RQ_PSN),
      VerbsCall.modifyQP rts_attr (IBV_QP_STATE ||| IBV_QP_SQ_PSN)]) ++
  (if poll_mode then [] else [VerbsCall.reqNotifyCQ])

/-- The RTR attribute mask the spec table prescribes per transport. -/
def spec_rtr_mask : Transport → Nat
  | Transport.rc =>
      IBV_QP_STATE ||| IBV_QP_AV ||| IBV_QP_PATH_MTU ||| IBV_QP_DEST_QPN |||
      IBV_QP_RQ_PSN ||| IBV_QP_MAX_DEST_RD_ATOMIC ||| IBV_QP_MIN_RNR_TIMER
  | Transport.uc =>
      IBV_QP_STATE ||| IBV_QP_AV ||| IBV_QP_PATH_MTU ||| IBV_QP_DEST_QPN |||
      IBV_QP_RQ_PSN
  | Transport.ud => IBV_QP_STATE

/-- The RTS attribute mask the spec table prescribes per transport. -/
def spec_rts_mask : Transport → Nat
  | Transport.rc =>
      IBV_QP_STATE ||| IBV_QP_TIMEOUT ||| IBV_QP_RETRY_CNT |||
      IBV_QP_RNR_RETRY ||| IBV_QP_SQ_PSN ||| IBV_QP_MAX_QP_RD_ATOMIC
  | Transport.uc => IBV_QP_STATE ||| IBV_QP_SQ_PSN
  | Transport.ud => IBV_QP_STATE ||| IBV_QP_SQ_PSN

/-! ## C2 and C10: maybe and ib_poll (src/rdma.c lines 1908-1942) -/

/-- Function `maybe(val, msg)` of src/rdma.c: if `Finished` is set and errno is EINTR, return `val`;
otherwise `error(SYS, msg)` aborts the test (modelled as `Except.error`).
`finished` is the value of the volatile flag read inside `maybe`. -/
def maybe (finished : Bool) (errno : Nat) (val : Int) : Except Unit Int :=
  if finished ∧ errno = EINTR then Except.ok val else Except.error ()

/-- The calls `ib_poll` can issue. -/
inductive IbCall where
  | getCqEvent
  | reqNotify
  | pollCq
deriving Repr, DecidableEq

/-- Outcomes of the underlying verbs calls inside one `ib_poll` invocation.
`finAtFail` is the value of `Finished` when `maybe` runs after a failure
(the alarm may have fired during the blocking call). -/
structure PollEnv where
  eventOk : Bool
  eventCqMatch : Bool
  notifyOk : Bool
  pollRet : Int
  errno : Nat
  finAtFail : Bool
deriving Repr, DecidableEq

/-- Function `ib_poll` of src/rdma.c: when not in poll mode and `Finished` is clear at entry, block on
`ibv_get_cq_event`, check the CQ, rearm with `ibv_req_notify_cq`; then (in all
modes) call the non-blocking `ibv_poll_cq`. Failures funnel through `maybe`
except the unknown-CQ check, whose `error(0, ...)` is unconditionally fatal.
Returns the result together with the trace of verbs calls issued. -/
def ib_poll (poll_mode fin0 : Bool) (env : PollEnv) :
    Except Unit Int × List IbCall :=
  if poll_mode = false ∧ fin0 = false then
    if env.eventOk = false then
      (maybe env.finAtFail env.errno 0, [IbCall.getCqEvent])
    else if env.eventCqMatch = false then
      (Except.error (), [IbCall.getCqEvent])
    else if env.notifyOk = false then
      (maybe env.finAtFail env.errno 0, [IbCall.getCqEvent, IbCall.reqNotify])
    else if env.pollRet < 0 then
      (maybe env.finAtFail env.errno 0,
       [IbCall.getCqEvent, IbCall.reqNotify, IbCall.pollCq])
    else
      (Except.ok env.pollRet,
       [IbCall.getCqEvent, IbCall.reqNotify, IbCall.pollCq])
  else
    if env.pollRet < 0 then
      (maybe env.finAtFail env.errno 0, [IbCall.pollCq])
    else
      (Except.ok env.pollRet, [IbCall.pollCq])

/-- Outcome of one `ibv_post_send` underlying a posting helper. -/
structure PostEnv where
  postOk : Bool
  errno : Nat
  finAtFail : Bool
deriving Repr, DecidableEq

/-- One iteration of the posting loop of `ib_post_send`: on success account
`msg_size` bytes and one message on the local send counters; on failure return
silently (no accounting, no error counter) when `Finished` is set and errno is
EINTR, else abort fatally. -/
def ib_post_send_step (msg_size : Nat) (env : PostEnv) (st : USTAT) :
    Except Unit USTAT :=
  if env.postOk then
    Except.ok { st with no_bytes := st.no_bytes + msg_size,
                        no_msgs := st.no_msgs + 1 }
  else if env.finAtFail ∧ env.errno = EINTR then Except.ok st
  else Except.error ()

/-! ## C3: completion accounting of the RDMA-read and atomic client loops -/

/-- Completion handling of `ib_client_rdma_read_lat` (src/rdma.c lines
1176-1187): a completion with the wrong WR ID is only logged; a SUCCESS
completion credits local receive and `rem_s` with `msg_size` bytes and one
message; any other status goes to `do_error(status, &LStat.s.no_errs)`. -/
def rdma_read_lat_account (msg_size : Nat) (wc : WC) (st : STAT) : STAT :=
  if wc.wr_id ≠ WRID_RDMA then st
  else if wc.status = IBV_WC_SUCCESS then
    { st with
      r := { st.r with no_bytes := st.r.no_bytes + msg_size,
                       no_msgs := st.r.no_msgs + 1 },
      rem_s := { st.rem_s with no_bytes := st.rem_s.no_bytes + msg_size,
                               no_msgs := st.rem_s.no_msgs + 1 } }
  else { st with s := { st.s with no_errs := st.s.no_errs + 1 } }

/-- Per-completion accounting of `ib_client_rdma_bw` (src/rdma.c lines
1216-1229): only the RDMA READ opcode accounts local receive plus `rem_s`
(and optionally touches the buffer); other opcodes account nothing on
success; errors go to the local send error counter. -/
def rdma_bw_account (opcode : Opcode) (msg_size : Nat) (status : Nat)
    (st : STAT) : STAT :=
  if status = IBV_WC_SUCCESS then
    if opcode = Opcode.rdmaRead then
      { st with
        r := { st.r with no_bytes := st.r.no_bytes + msg_size,
                         no_msgs := st.r.no_msgs + 1 },
        rem_s := { st.rem_s with no_bytes := st.rem_s.no_bytes + msg_size,
                                 no_msgs := st.rem_s.no_msgs + 1 } }
    else st
  else { st with s := { st.s with no_errs := st.s.no_errs + 1 } }

/-- Per-completion accounting of `ib_client_atomic` (src/rdma.c lines
858-869), shared by the fetch-add and compare-swap messaging-rate loops:
a SUCCESS completion credits `rem_r` with `sizeof(uint64_t)` = 8 bytes and
one message; any other status increments the local send error counter. -/
def atomic_mr_account (status : Nat) (st : STAT) : STAT :=
  if status = IBV_WC_SUCCESS then
    { st with rem_r := { st.rem_r with no_bytes := st.rem_r.no_bytes + 8,
                                       no_msgs := st.rem_r.no_msgs + 1 } }
  else { st with s := { st.s with no_errs := st.s.no_errs + 1 } }

/-! ## C1 and C5: socket / datagram measurement loops (ip.c, rds.c) -/

/-- One blocking-call return observed by a socket loop: the byte count the
call returned, and the value of `Finished` immediately after the return. -/
structure SockEv where
  ret : Int
  fin : Bool
deriving Repr, DecidableEq

/-- The measurement loop of `socket_client_bw` (ip.c lines 255-266): after
each `send_full` return the loop first checks `Finished` and breaks without
accounting; then a negative return increments the send error counter and any
other return adds the returned bytes and one message. -/
def socket_client_bw_loop : List SockEv → USTAT → USTAT
  | [], st => st
  | ev :: rest, st =>
    if ev.fin then st
    else if ev.ret < 0 then
      socket_client_bw_loop rest { st with no_errs := st.no_errs + 1 }
    else
      socket_client_bw_loop rest
        { st with no_bytes := st.no_bytes + ev.ret.toNat,
                  no_msgs := st.no_msgs + 1 }

/-- The measurement loop of `datagram_client_bw` (ip.c lines 534-545): after
each `sendto` return the loop checks `Finished` and breaks; a negative return
increments the send error counter; ANY non-negative return — including a
short datagram write — adds the returned bytes and one message. -/
def datagram_client_bw_loop : List SockEv → USTAT → USTAT
  | [], st => st
  | ev :: rest, st =>
    if ev.fin then st
    else if ev.ret < 0 then
      datagram_client_bw_loop rest { st with no_errs := st.no_errs + 1 }
    else
      datagram_client_bw_loop rest
        { st with no_bytes := st.no_bytes + ev.ret.toNat,
                  no_msgs := st.no_msgs + 1 }

/-- The measurement loop of `run_server_rds_bw` (rds.c, unnamed part_002
lines 124-134): after each `recv` return the loop checks `Finished` and
breaks; a return different from `Req.msg_size` increments the receive error
counter; only a full-size datagram is accounted. -/
def rds_server_bw_loop (msg_size : Int) : List SockEv → USTAT → USTAT
  | [], st => st
  | ev :: rest, st =>
    if ev.fin then st
    else if ev.ret ≠ msg_size then
      rds_server_bw_loop msg_size rest { st with no_errs := st.no_errs + 1 }
    else
      rds_server_bw_loop msg_size rest
        { st with no_bytes := st.no_bytes + ev.ret.toNat,
                  no_msgs := st.no_msgs + 1 }

/-! ## C1: the RDMA-write polling-latency loop (src/rdma.c lines 1106-1154) -/

/-- The oracle for one iteration of the `ib_rdma_write_poll_lat` loop body:
whether `ibv_post_send` inside `ib_post_rdma` failed with EINTR under
`Finished` (returning without accounting), the value of `Finished` when
`ib_post_rdma` returned, the completions harvested by `ibv_poll_cq`, and
whether the marker spin-wait exited because `Finished` became set (rather
than because both marker bytes showed the remote ID). -/
structure PollLatIter where
  postIntr : Bool
  finAfterPost : Bool
  polls : List WC
  spinFin : Bool
deriving Repr, DecidableEq

/-- Completion handling inside `ib_rdma_write_poll_lat`: wrong WR IDs are only
logged; non-SUCCESS statuses go to `do_error(status, &LStat.s.no_errs)`. -/
def poll_lat_wc (st : STAT) (wc : WC) : STAT :=
  if wc.wr_id ≠ WRID_RDMA then st
  else if wc.status ≠ IBV_WC_SUCCESS then
    { st with s := { st.s with no_errs := st.s.no_errs + 1 } }
  else st

/-- The `ib_rdma_write_poll_lat` measurement loop. Each iteration writes the
local ID markers; when `send` is set it posts one RDMA write (`ib_post_rdma`
accounts `msg_size` send bytes and one send message unless the post was cut
short by EINTR under `Finished`), breaks if `Finished` is set after the post,
and drains the CQ; then it spin-waits on the marker bytes until they show the
remote ID or `Finished` becomes set, accounts `msg_size` receive bytes and one
receive message, sets `send`, and re-tests the loop condition. -/
def ib_rdma_write_poll_lat_loop (msg_size : Nat) :
    Bool → List PollLatIter → STAT → STAT
  | _, [], st => st
  | send, it :: rest, st =>
    if send then
      let st1 :=
        if it.postIntr then st
        else { st with s := { st.s with no_bytes := st.s.no_bytes + msg_size,
                                        no_msgs := st.s.no_msgs + 1 } }
      if it.finAfterPost then st1
      else
        let st2 := it.polls.foldl poll_lat_wc st1
        let st3 := { st2 with
          r := { st2.r with no_bytes := st2.r.no_bytes + msg_size,
                            no_msgs := st2.r.no_msgs + 1 } }
        if it.spinFin then st3
        else ib_rdma_write_poll_lat_loop msg_size true rest st3
    else
      let st3 := { st with
        r := { st.r with no_bytes := st.r.no_bytes + msg_size,
                         no_msgs := st.r.no_msgs + 1 } }
      if it.spinFin then st3
      else ib_rdma_write_poll_lat_loop msg_size true rest st3

/-! ## C9: big-endian codec and the connection-context round trip -/

/-- Modelled from the spec: `enc_int` lives in qperf.c, which is not under
src/ (qperf.h only declares it). Spec section 4.1: "`encode_int(v, n)` stores
the low n bytes of v MSB-first". -/
def encode_int (v : Nat) : Nat → List Nat
  | 0 => []
  | n + 1 => (v / 256 ^ n) % 256 :: encode_int (v % 256 ^ n) n

/-- Modelled from the spec: `dec_int` lives in qperf.c, which is not under
src/. Spec section 4.1: "`decode_int(n)` reads n bytes MSB-first and
zero-extends". -/
def decode_int (bytes : List Nat) : Nat :=
  bytes.foldl (fun acc b => acc * 256 + b) 0

/-- RDMA connection context, `IBCON` in src/rdma.c: uint32 lid, qpn, psn,
rkey and a uint64 vaddr. -/
structure IBCON where
  lid : Nat
  qpn : Nat
  psn : Nat
  rkey : Nat
  vaddr : Nat
deriving Repr, DecidableEq

/-- Function `enc_ibcon` (src/rdma.c lines 1946-1956): encode the five fields in
declaration order with their C sizes — 4, 4, 4, 4 and 8 bytes. -/
def enc_ibcon (h : IBCON) : List Nat :=
  encode_int h.lid 4 ++ encode_int h.qpn 4 ++ encode_int h.psn 4 ++
  encode_int h.rkey 4 ++ encode_int h.vaddr 8

/-- Function `dec_ibcon` (src/rdma.c lines 1959-1970): decode the five fields in the
same order and widths, consuming the stream left to right. -/
def dec_ibcon (s : List Nat) : IBCON :=
  let s1 := s.drop 4
  let s2 := s1.drop 4
  let s3 := s2.drop 4
  let s4 := s3.drop 4
  ⟨decode_int (s.take 4),
   decode_int (s1.take 4),
   decode_int (s2.take 4),
   decode_int (s3.take 4),
   decode_int (s4.take 8)⟩

/-! ## Helper lemmas -/

theorem encode_int_length (v n : Nat) : (encode_int v n).length = n := by
  induction n generalizing v with
  | zero => rfl
  | succ n ih => simp [encode_int, ih]

theorem encode_int_foldl (n : Nat) : ∀ v acc : Nat, v < 256 ^ n →
    (encode_int v n).foldl (fun a b => a * 256 + b) acc = acc * 256 ^ n + v := by
  induction n with
  | zero =>
    intro v acc hv
    simp only [encode_int, List.foldl_nil, pow_zero]
    omega
  | succ n ih =>
    intro v acc hv
    have hpos : 0 < 256 ^ n := Nat.pos_pow_of_pos n (by norm_num)
    have hdiv : v / 256 ^ n < 256 := by
      apply Nat.div_lt_of_lt_mul
      calc v < 256 ^ (n + 1) := hv
        _ = 256 ^ n * 256 := by ring
    have hmod : v / 256 ^ n % 256 = v / 256 ^ n := Nat.mod_eq_of_lt hdiv
    have hrest : v % 256 ^ n < 256 ^ n := Nat.mod_lt _ hpos
    simp only [encode_int, List.foldl_cons]
    rw [hmod, ih (v % 256 ^ n) (acc * 256 + v / 256 ^ n) hrest]
    have hsplit : (acc * 256 + v / 256 ^ n) * 256 ^ n + v % 256 ^ n
        = acc * 256 ^ (n + 1) + (256 ^ n * (v / 256 ^ n) + v % 256 ^ n) := by
      ring
    rw [hsplit, Nat.div_add_mod]

theorem decode_encode_int (n v : Nat) (hv : v < 256 ^ n) :
    decode_int (encode_int v n) = v := by
  have h := encode_int_foldl n v 0 hv
  simpa [decode_int] using h

theorem poll_lat_wc_r (st : STAT) (wc : WC) : (poll_lat_wc st wc).r = st.r := by
  unfold poll_lat_wc
  split
  · rfl
  · split <;> rfl

theorem foldl_poll_lat_wc_r (l : List WC) (st : STAT) :
    (l.foldl poll_lat_wc st).r = st.r := by
  induction l generalizing st with
  | nil => rfl
  | cons wc rest ih => rw [List.foldl_cons, ih, poll_lat_wc_r]

/-! ## Claim theorems -/

/-- C4, counterexample: with the device maximum `max_qp_rd_atom = 4` and a
configured `rd_atomic = 5`, neither revision of ib_open clamps the value to
4: the src/rdma.c revision fails setup fatally (`error(0, "device only
supports ...")` is noreturn there), and the unnamed/part_001 revision prints
the diagnostic but keeps the unclamped value 5 and continues. Both refute the
claim that the value is reduced to the maximum so that setup still succeeds. -/
theorem claim_C4_counterexample :
    ib_open_rd_atomic 5 4 = none
    ∧ ib_open_rd_atomic_part001 5 4 = (5, true) := by
  decide

/-- C4, amended: during ib_open, a configured `rd_atomic` of zero is replaced
by the device maximum and a configured value not exceeding the maximum is
kept (both revisions); a configured value exceeding the maximum is never
clamped: the src/rdma.c revision makes setup fail fatally, while the
unnamed/part_001 revision prints a diagnostic and continues with the
unclamped value. -/
theorem claim_C4 : ∀ r m : Nat,
    (ib_open_rd_atomic 0 m = some m)
    ∧ (0 < r → r ≤ m → ib_open_rd_atomic r m = some r)
    ∧ (m < r → ib_open_rd_atomic r m = none)
    ∧ (ib_open_rd_atomic_part001 0 m = (m, false))
    ∧ (0 < r → r ≤ m → ib_open_rd_atomic_part001 r m = (r, false))
    ∧ (m < r → ib_open_rd_atomic_part001 r m = (r, true)) := by
  intro r m
  refine ⟨rfl, ?_, ?_, rfl, ?_, ?_⟩
  · intro h1 h2
    unfold ib_open_rd_atomic
    rw [if_neg (by omega), if_neg (by omega)]
  · intro h
    unfold ib_open_rd_atomic
    rw [if_neg (by omega), if_pos (by omega)]
  · intro h1 h2
    unfold ib_open_rd_atomic_part001
    rw [if_neg (by omega), if_neg (by omega)]
  · intro h
    unfold ib_open_rd_atomic_part001
    rw [if_neg (by omega), if_pos (by omega)]

/-- C4, witness for the amended theorem at concrete inputs. -/
theorem claim_C4_witness :
    ib_open_rd_atomic 0 7 = some 7
    ∧ ib_open_rd_atomic 3 7 = some 3
    ∧ ib_open_rd_atomic 9 7 = none
    ∧ ib_open_rd_atomic_part001 0 7 = (7, false)
    ∧ ib_open_rd_atomic_part001 3 7 = (3, false)
    ∧ ib_open_rd_atomic_part001 9 7 = (9, true) :=
  ⟨(claim_C4 3 7).1, (claim_C4 3 7).2.1 (by decide) (by decide),
   (claim_C4 9 7).2.2.1 (by decide), (claim_C4 3 7).2.2.2.1,
   (claim_C4 3 7).2.2.2.2.1 (by decide) (by decide),
   (claim_C4 9 7).2.2.2.2.2 (by decide)⟩

/-- C6: sends and RDMA writes (plain and with-immediate) carry the INLINE
flag exactly when `msg_size ≤ max_inline_data` — including the boundary where
`msg_size = max_inline_data` sets it and `msg_size = max_inline_data + 1`
does not — while RDMA reads, compare-and-swap and fetch-and-add never do. -/
theorem claim_C6 :
    (∀ ms mi : Nat, hasInline (ib_post_send_flags ms mi) = decide (ms ≤ mi))
    ∧ (∀ ms mi : Nat,
        hasInline (ib_post_rdma_flags Opcode.rdmaWrite ms mi) = decide (ms ≤ mi))
    ∧ (∀ ms mi : Nat,
        hasInline (ib_post_rdma_flags Opcode.rdmaWriteImm ms mi) = decide (ms ≤ mi))
    ∧ (∀ ms mi : Nat, hasInline (ib_post_rdma_flags Opcode.rdmaRead ms mi) = false)
    ∧ hasInline ib_post_compare_swap_flags = false
    ∧ hasInline ib_post_fetch_add_flags = false
    ∧ (∀ mi : Nat, hasInline (ib_post_send_flags mi mi) = true
        ∧ hasInline (ib_post_send_flags (mi + 1) mi) = false) := by
  have hsend : ∀ ms mi : Nat,
      hasInline (ib_post_send_flags ms mi) = decide (ms ≤ mi) := by
    intro ms mi
    unfold ib_post_send_flags
    by_cases h : ms ≤ mi
    · rw [if_pos h]
      simp [h, hasInline, IBV_SEND_SIGNALED, IBV_SEND_INLINE]
    · rw [if_neg h]
      simp only [hasInline, IBV_SEND_SIGNALED, IBV_SEND_INLINE, h, decide_eq_false_iff_not]
      decide
  refine ⟨hsend, ?_, ?_, ?_, by decide, by decide, ?_⟩
  · intro ms mi
    unfold ib_post_rdma_flags
    by_cases h : ms ≤ mi
    · rw [if_pos ⟨by decide, h⟩]
      simp [h, hasInline, IBV_SEND_SIGNALED, IBV_SEND_INLINE]
    · rw [if_neg (by simp [h])]
      simp only [hasInline, IBV_SEND_SIGNALED, IBV_SEND_INLINE, h, decide_eq_false_iff_not]
      decide
  · intro ms mi
    unfold ib_post_rdma_flags
    by_cases h : ms ≤ mi
    · rw [if_pos ⟨by decide, h⟩]
      simp [h, hasInline, IBV_SEND_SIGNALED, IBV_SEND_INLINE]
    · rw [if_neg (by simp [h])]
      simp only [hasInline, IBV_SEND_SIGNALED, IBV_SEND_INLINE, h, decide_eq_false_iff_not]
      decide
  · intro ms mi
    unfold ib_post_rdma_flags
    rw [if_neg (by simp)]
    decide
  · intro mi
    constructor
    · rw [hsend]
      simp
    · rw [hsend]
      simp

/-- C8: ib_prepare drives the QP to RTR then RTS with exactly the per-
transport attribute masks of the spec table, carrying TIMEOUT=14,
RETRY_CNT=7, RNR_RETRY=7 and MIN_RNR_TIMER=12 in the attribute structures;
UD additionally creates an address handle; and when poll mode is off a CQ
notification request is issued once at the end. -/
theorem claim_C8 : ∀ (t : Transport) (pm : Bool),
    (ib_prepare_trace t pm =
      [VerbsCall.modifyQP rtr_attr (spec_rtr_mask t),
       VerbsCall.modifyQP rts_attr (spec_rts_mask t)]
      ++ (if t = Transport.ud then [VerbsCall.createAH] else [])
      ++ (if pm then [] else [VerbsCall.reqNotifyCQ]))
    ∧ rts_attr.timeout = 14 ∧ rts_attr.retry_cnt = 7
    ∧ rts_attr.rnr_retry = 7 ∧ rtr_attr.min_rnr_timer = 12 := by
  intro t pm
  cases t <;> cases pm <;> exact ⟨rfl, rfl, rfl, rfl, rfl⟩

/-- C10: once the finished flag is set, ib_poll skips the blocking
event-channel path regardless of poll mode — the only verbs call it issues
is the non-blocking `ibv_poll_cq`. -/
theorem claim_C10 : ∀ (pm : Bool) (env : PollEnv),
    (ib_poll pm true env).2 = [IbCall.pollCq] := by
  intro pm env
  unfold ib_poll
  rw [if_neg (by simp)]
  split <;> rfl

/-- C7: ib_close issues its destroy calls in exactly the order AH, CQ, QP,
MR, PD, completion channel, device context, buffer, device list, skipping
null handles; in particular whenever both exist the CQ is destroyed before
the QP. -/
theorem claim_C7 : ∀ h : Handles,
    (ib_close_trace h = spec_close_order.filter h.present)
    ∧ (h.cq = true → h.qp = true →
        List.Sublist [Resource.cq, Resource.qp] (ib_close_trace h)) := by
  intro h
  obtain ⟨a, b, c, d, e, f, g, i, j⟩ := h
  cases a <;> cases b <;> cases c <;> cases d <;> cases e <;> cases f <;>
    cases g <;> cases i <;> cases j <;> exact ⟨by decide, by decide⟩

/-- C7, witness: with every handle live, the teardown trace contains CQ
before QP. -/
theorem claim_C7_witness :
    List.Sublist [Resource.cq, Resource.qp]
      (ib_close_trace ⟨true, true, true, true, true, true, true, true, true⟩) :=
  (claim_C7 ⟨true, true, true, true, true, true, true, true, true⟩).2 rfl rfl

/-- C2, counterexample: `ibv_get_cq_event` failing with errno EINTR while the
finished flag is NOT set makes `maybe` abort the test fatally
(`error(SYS, ...)`), refuting the claim that the call is retried. -/
theorem claim_C2_counterexample :
    (ib_poll false false ⟨false, true, true, 0, EINTR, false⟩).1
      = Except.error () := by
  rfl

/-- C2, amended: a blocking CQ event wait, CQ poll, or work-request post that
fails with EINTR while the finished flag is set is treated as zero work done
(zero completions, or an unaccounted post) and no error counter is touched;
any failure while the finished flag is clear — including EINTR — aborts the
test fatally rather than being retried. -/
theorem claim_C2 :
    (∀ (env : PollEnv), env.errno = EINTR → env.finAtFail = true →
      env.eventOk = false →
      (ib_poll false false env).1 = Except.ok 0)
    ∧ (∀ (fin0 : Bool) (env : PollEnv), env.errno = EINTR →
        env.finAtFail = true → env.pollRet < 0 →
        (ib_poll true fin0 env).1 = Except.ok 0)
    ∧ (∀ (msg_size : Nat) (env : PostEnv) (st : USTAT), env.postOk = false →
        env.errno = EINTR → env.finAtFail = true →
        ib_post_send_step msg_size env st = Except.ok st)
    ∧ (∀ (msg_size : Nat) (env : PostEnv) (st : USTAT), env.postOk = false →
        env.finAtFail = false →
        ib_post_send_step msg_size env st = Except.error ()) := by
  refine ⟨?_, ?_, ?_, ?_⟩
  · intro env h1 h2 h3
    unfold ib_poll
    rw [if_pos ⟨rfl, rfl⟩, if_pos (by simp [h3])]
    unfold maybe
    rw [if_pos ⟨h2, h1⟩]
  · intro fin0 env h1 h2 h3
    unfold ib_poll
    rw [if_neg (by simp), if_pos h3]
    unfold maybe
    rw [if_pos ⟨h2, h1⟩]
  · intro ms env st h1 h2 h3
    unfold ib_post_send_step
    rw [if_neg (by simp [h1]), if_pos ⟨h3, h2⟩]
  · intro ms env st h1 h2
    unfold ib_post_send_step
    rw [if_neg (by simp [h1]), if_neg (by simp [h2])]

/-- C2, witness for the amended theorem at concrete inputs. -/
theorem claim_C2_witness :
    (ib_poll false false ⟨false, true, true, 0, EINTR, true⟩).1 = Except.ok 0
    ∧ (ib_poll true false ⟨true, true, true, -1, EINTR, true⟩).1 = Except.ok 0
    ∧ ib_post_send_step 64 ⟨false, EINTR, true⟩ USTAT.zero
        = Except.ok USTAT.zero
    ∧ ib_post_send_step 64 ⟨false, EINTR, false⟩ USTAT.zero
        = Except.error () :=
  ⟨claim_C2.1 ⟨false, true, true, 0, EINTR, true⟩ rfl rfl rfl,
   claim_C2.2.1 false ⟨true, true, true, -1, EINTR, true⟩ rfl rfl (by decide),
   claim_C2.2.2.1 64 ⟨false, EINTR, true⟩ USTAT.zero rfl rfl rfl,
   claim_C2.2.2.2 64 ⟨false, EINTR, false⟩ USTAT.zero rfl rfl⟩

/-- C3, counterexample: a successful atomic completion in the client atomic
messaging-rate loop credits `rem_r` (remote receive), NOT `rem_s` (remote
send) — starting from zeroed statistics, `rem_s` stays zero while
`rem_r.no_msgs` becomes 1 — refuting the claim that atomic completions
credit the rem_s counters. -/
theorem claim_C3_counterexample :
    (atomic_mr_account IBV_WC_SUCCESS STAT.zero).rem_s = USTAT.zero
    ∧ (atomic_mr_account IBV_WC_SUCCESS STAT.zero).rem_r.no_msgs = 1 := by
  decide

/-- C3, amended: successful client RDMA read completions credit local receive
AND `rem_s` with the payload size and one message (in both the latency and
bandwidth loops); successful client atomic completions instead credit
`rem_r` with 8 bytes and one message, leaving `rem_s` untouched. -/
theorem claim_C3 :
    (∀ (ms : Nat) (st : STAT),
      rdma_read_lat_account ms ⟨WRID_RDMA, IBV_WC_SUCCESS⟩ st =
        { st with
          r := { st.r with no_bytes := st.r.no_bytes + ms,
                           no_msgs := st.r.no_msgs + 1 },
          rem_s := { st.rem_s with no_bytes := st.rem_s.no_bytes + ms,
                                   no_msgs := st.rem_s.no_msgs + 1 } })
    ∧ (∀ (ms : Nat) (st : STAT),
        rdma_bw_account Opcode.rdmaRead ms IBV_WC_SUCCESS st =
          { st with
            r := { st.r with no_bytes := st.r.no_bytes + ms,
                             no_msgs := st.r.no_msgs + 1 },
            rem_s := { st.rem_s with no_bytes := st.rem_s.no_bytes + ms,
                                     no_msgs := st.rem_s.no_msgs + 1 } })
    ∧ (∀ st : STAT,
        atomic_mr_account IBV_WC_SUCCESS st =
          { st with
            rem_r := { st.rem_r with no_bytes := st.rem_r.no_bytes + 8,
                                     no_msgs := st.rem_r.no_msgs + 1 } }) := by
  refine ⟨?_, ?_, ?_⟩
  · intro ms st
    unfold rdma_read_lat_account
    rw [if_neg (by decide), if_pos rfl]
  · intro ms st
    unfold rdma_bw_account
    rw [if_pos rfl, if_pos rfl]
  · intro st
    unfold atomic_mr_account
    rw [if_pos rfl]

/-- C5, counterexample: in the ip.c datagram bandwidth client, a short
datagram write (`sendto` returned 2 with `msg_size = 4`, finished not set) is
counted as a SUCCESS — 2 bytes, one message, zero errors — refuting the claim
that every short datagram write increments the error counter. -/
theorem claim_C5_counterexample :
    datagram_client_bw_loop [⟨2, false⟩] USTAT.zero = ⟨2, 1, 0⟩ := by
  decide

/-- C5, amended: the rds.c drivers count a datagram operation as a success
exactly when the returned byte count equals `msg_size`, any other return
incrementing the error counter; the ip.c datagram drivers instead count any
non-negative return as a success (accruing the returned byte count) and only
a negative return as an error. -/
theorem claim_C5 :
    (∀ (ms : Int) (ev : SockEv) (rest : List SockEv) (st : USTAT),
      ev.fin = false → ev.ret ≠ ms →
      rds_server_bw_loop ms (ev :: rest) st
        = rds_server_bw_loop ms rest { st with no_errs := st.no_errs + 1 })
    ∧ (∀ (ms : Int) (ev : SockEv) (rest : List SockEv) (st : USTAT),
        ev.fin = false → ev.ret = ms →
        rds_server_bw_loop ms (ev :: rest) st
          = rds_server_bw_loop ms rest
              { st with no_bytes := st.no_bytes + ev.ret.toNat,
                        no_msgs := st.no_msgs + 1 })
    ∧ (∀ (ev : SockEv) (rest : List SockEv) (st : USTAT),
        ev.fin = false → 0 ≤ ev.ret →
        datagram_client_bw_loop (ev :: rest) st
          = datagram_client_bw_loop rest
              { st with no_bytes := st.no_bytes + ev.ret.toNat,
                        no_msgs := st.no_msgs + 1 })
    ∧ (∀ (ev : SockEv) (rest : List SockEv) (st : USTAT),
        ev.fin = false → ev.ret < 0 →
        datagram_client_bw_loop (ev :: rest) st
          = datagram_client_bw_loop rest
              { st with no_errs := st.no_errs + 1 }) := by
  refine ⟨?_, ?_, ?_, ?_⟩
  · intro ms ev rest st h1 h2
    simp [rds_server_bw_loop, h1, h2]
  · intro ms ev rest st h1 h2
    simp [rds_server_bw_loop, h1, h2]
  · intro ev rest st h1 h2
    have h3 : ¬ev.ret < 0 := by omega
    simp [datagram_client_bw_loop, h1, h3]
  · intro ev rest st h1 h2
    simp [datagram_client_bw_loop, h1, h2]

/-- C5, witness for the amended theorem at concrete inputs. -/
theorem claim_C5_witness :
    rds_server_bw_loop 4 [⟨2, false⟩] USTAT.zero
      = rds_server_bw_loop 4 [] ⟨0, 0, 1⟩
    ∧ rds_server_bw_loop 4 [⟨4, false⟩] USTAT.zero
        = rds_server_bw_loop 4 [] ⟨4, 1, 0⟩
    ∧ datagram_client_bw_loop [⟨2, false⟩] USTAT.zero
        = datagram_client_bw_loop [] ⟨2, 1, 0⟩
    ∧ datagram_client_bw_loop [⟨-1, false⟩] USTAT.zero
        = datagram_client_bw_loop [] ⟨0, 0, 1⟩ :=
  ⟨claim_C5.1 4 ⟨2, false⟩ [] USTAT.zero rfl (by decide),
   claim_C5.2.1 4 ⟨4, false⟩ [] USTAT.zero rfl rfl,
   claim_C5.2.2.1 ⟨2, false⟩ [] USTAT.zero rfl (by decide),
   claim_C5.2.2.2 ⟨-1, false⟩ [] USTAT.zero rfl (by decide)⟩

/-- C1, counterexample: in the RDMA-write polling-latency loop with
`msg_size = 1`, an iteration whose marker spin-wait exits because the
finished flag became set (the remote markers never arrived) STILL accounts
one received message of one byte before the loop exits — a completion
observed after finished became true is counted, refuting the claim. -/
theorem claim_C1_counterexample :
    (ib_rdma_write_poll_lat_loop 1 true [⟨false, false, [], true⟩]
        STAT.zero).r.no_msgs = 1
    ∧ (ib_rdma_write_poll_lat_loop 1 true [⟨false, false, [], true⟩]
        STAT.zero).r.no_bytes = 1 := by
  decide

/-- C1, amended: the socket loops (socket_client_bw and its siblings) check
the finished flag immediately after each blocking return and exit before
accounting; the RDMA-write polling-latency loop does so after `ib_post_rdma`,
but when its marker spin-wait exits with the finished flag set it still
accounts `msg_size` receive bytes and one receive message before exiting. -/
theorem claim_C1 :
    (∀ (ev : SockEv) (rest : List SockEv) (st : USTAT), ev.fin = true →
      socket_client_bw_loop (ev :: rest) st = st)
    ∧ (∀ (ms : Nat) (it : PollLatIter) (rest : List PollLatIter) (st : STAT),
        it.finAfterPost = true → it.postIntr = true →
        ib_rdma_write_poll_lat_loop ms true (it :: rest) st = st)
    ∧ (∀ (ms : Nat) (it : PollLatIter) (rest : List PollLatIter) (st : STAT),
        it.finAfterPost = false → it.spinFin = true →
        (ib_rdma_write_poll_lat_loop ms true (it :: rest) st).r.no_msgs
          = st.r.no_msgs + 1) := by
  refine ⟨?_, ?_, ?_⟩
  · intro ev rest st hfin
    unfold socket_client_bw_loop
    rw [if_pos hfin]
  · intro ms it rest st h1 h2
    obtain ⟨pi, fap, polls, sf⟩ := it
    simp only at h1 h2
    subst h1 h2
    simp [ib_rdma_write_poll_lat_loop]
  · intro ms it rest st h1 h2
    obtain ⟨pi, fap, polls, sf⟩ := it
    simp only at h1 h2
    subst h1 h2
    cases pi <;>
      simp [ib_rdma_write_poll_lat_loop, foldl_poll_lat_wc_r]

/-- C1, witness for the amended theorem at concrete inputs. -/
theorem claim_C1_witness :
    socket_client_bw_loop [⟨3, true⟩] USTAT.zero = USTAT.zero
    ∧ ib_rdma_write_poll_lat_loop 2 true [⟨true, true, [], false⟩] STAT.zero
        = STAT.zero
    ∧ (ib_rdma_write_poll_lat_loop 2 true [⟨false, false, [], true⟩]
        STAT.zero).r.no_msgs = STAT.zero.r.no_msgs + 1 :=
  ⟨claim_C1.1 ⟨3, true⟩ [] USTAT.zero rfl,
   claim_C1.2.1 2 ⟨true, true, [], false⟩ [] STAT.zero rfl rfl,
   claim_C1.2.2 2 ⟨false, false, [], true⟩ [] STAT.zero rfl rfl⟩

/-- C9: decoding the n-byte big-endian encoding of any integer representable
in n bytes yields the integer back (for the widths 1, 2, 4, 8 the request
codec uses), and consequently a connection context encoded by enc_ibcon and
decoded by dec_ibcon reproduces every field unchanged. -/
theorem claim_C9 :
    (∀ n v : Nat, (n = 1 ∨ n = 2 ∨ n = 4 ∨ n = 8) → v < 256 ^ n →
      decode_int (encode_int v n) = v)
    ∧ (∀ h : IBCON, h.lid < 256 ^ 4 → h.qpn < 256 ^ 4 → h.psn < 256 ^ 4 →
        h.rkey < 256 ^ 4 → h.vaddr < 256 ^ 8 →
        dec_ibcon (enc_ibcon h) = h) := by
  constructor
  · intro n v _ hv
    exact decode_encode_int n v hv
  · intro h h1 h2 h3 h4 h5
    obtain ⟨lid, qpn, psn, rkey, vaddr⟩ := h
    simp only at h1 h2 h3 h4 h5
    unfold dec_ibcon enc_ibcon
    simp only [List.append_assoc]
    rw [List.take_left' (encode_int_length lid 4),
        List.drop_left' (encode_int_length lid 4),
        List.take_left' (encode_int_length qpn 4),
        List.drop_left' (encode_int_length qpn 4),
        List.take_left' (encode_int_length psn 4),
        List.drop_left' (encode_int_length psn 4),
        List.take_left' (encode_int_length rkey 4),
        List.drop_left' (encode_int_length rkey 4),
        List.take_of_length_le (by rw [encode_int_length]),
        decode_encode_int 4 lid h1, decode_encode_int 4 qpn h2,
        decode_encode_int 4 psn h3, decode_encode_int 4 rkey h4,
        decode_encode_int 8 vaddr h5]

/-- C9, witness: the round trip at width 2 on 0x1234 and on a concrete
connection context. -/
theorem claim_C9_witness :
    decode_int (encode_int 4660 2) = 4660
    ∧ dec_ibcon (enc_ibcon ⟨1, 2, 3, 4, 5⟩) = ⟨1, 2, 3, 4, 5⟩ :=
  ⟨claim_C9.1 2 4660 (Or.inr (Or.inl rfl)) (by norm_num),
   claim_C9.2 ⟨1, 2, 3, 4, 5⟩ (by norm_num) (by norm_num) (by norm_num)
     (by norm_num) (by norm_num)⟩

end Qperf
